import Mathlib

/-!
Shallow embedding of the seismic toolbox plotting module
(`seismicToolBoxClass.py`): the `wiggle` and `imageseis` rendering
pipelines of the `seismicToolBox` class.  Machine floats are modelled as
exact rationals; numpy arrays as lists of lists of rationals (row =
time sample, column = trace); the Python list arguments as `List ℚ`;
calls to `sys.exit` after a length check, and the Python exceptions an
out-of-range subscript or a `None` subscript would raise, as values of
an error type returned in `Except`.
-/

namespace seismicToolBox

/-- Floor of a rational as an integer, `q.num / q.den` (integer euclidean
division by a positive denominator, hence the floor). -/
def ratFloorZ (q : ℚ) : ℤ := q.num / q.den

/-- The Python builtin `int()` on a float: truncation toward zero. -/
def pyInt (q : ℚ) : ℤ := if q < 0 then -ratFloorZ (-q) else ratFloorZ q

/-- `np.clip(v, a_min, a_max)` on a scalar: `min (max v lo) hi`. -/
def clipQ (v lo hi : ℚ) : ℚ := min (max v lo) hi

/-- Float division as numpy performs it elementwise.  Division by zero
does not raise in numpy; it yields a non-finite value (`nan` for `0/0`,
`±inf` otherwise), modelled here as `none`. -/
def qdiv (a b : ℚ) : Option ℚ := if b = 0 then none else some (a / b)

/-- Insert into an ascending list, keeping it ascending. -/
def insertSorted (x : ℚ) : List ℚ → List ℚ
  | [] => [x]
  | y :: ys => if x ≤ y then x :: y :: ys else y :: insertSorted x ys

/-- Ascending insertion sort, the order `np.percentile` works with. -/
def sortAsc (l : List ℚ) : List ℚ := l.foldr insertSorted []

/-- `np.max` / `np.nanmax` over a flattened nonempty array (the module
never feeds NaN data, so `nanmax` and `max` agree); `0` on `[]`. -/
def listMax : List ℚ → ℚ
  | [] => 0
  | x :: xs => xs.foldl max x

/-- `np.percentile(a, p)` with the default linear interpolation: with the
flattened data sorted ascending and `h = (n-1)*p/100`, the result is
`a[⌊h⌋] + (h-⌊h⌋)*(a[⌊h⌋+1] - a[⌊h⌋])`. -/
def npPercentile (l : List ℚ) (p : ℚ) : ℚ :=
  let s := sortAsc l
  let n := s.length
  let h := ((n : ℚ) - 1) * p / 100
  let lo := ratFloorZ h
  let a := s.getD lo.toNat 0
  let b := s.getD (lo.toNat + 1) a
  a + (h - (lo : ℚ)) * (b - a)

/-- Normalisation of one Python slice endpoint against a length `n`:
negative indices count from the end and clamp at `0`, nonnegative ones
clamp at `n`. -/
def pyIndexNorm (n : ℕ) (i : ℤ) : ℕ := if i < 0 then ((n : ℤ) + i).toNat else min i.toNat n

/-- Python slice `l[a:b]` for integer endpoints. -/
def pySlice {α : Type} (l : List α) (a b : ℤ) : List α :=
  (l.take (pyIndexNorm l.length b)).drop (pyIndexNorm l.length a)

/-- Column `i` of a row-major matrix, `Data[:, i]` (reads past-the-end
positions as `0`; all uses stay in range). -/
def col (m : List (List ℚ)) (i : ℕ) : List ℚ := m.map (fun r => r.getD i 0)

/-- `trace[0] = 0` (line 217): zero the first entry. -/
def setFirst0 : List ℚ → List ℚ
  | [] => []
  | _ :: xs => 0 :: xs

/-- `trace[-1] = 0` (line 218): zero the last entry. -/
def setLast0 : List ℚ → List ℚ
  | [] => []
  | [_] => [0]
  | x :: xs => x :: setLast0 xs

/-- Endpoint pinning of a working trace, lines 217 to 218 of `wiggle`. -/
def pinEnds (l : List ℚ) : List ℚ := setLast0 (setFirst0 l)

/-- The state held by a `seismicToolBox` object: `self.Data`,
`self.SH` and `self.STH` (their payloads beyond `dt` are irrelevant to
the claims and abstracted), and the derived `self.dt`. -/
structure SegyState where
  Data : List (List ℚ)
  SH : ℚ
  STH : List ℚ
  dt : ℚ
  deriving DecidableEq

/-- Failure modes of the modelled calls: the length-check failure
(`print` + `sys.exit`, the ConfigurationError of the spec), the
IndexError a subscript of a too-short list raises, and the TypeError a
subscript of `None` raises. -/
inductive PyError where
  | configError : PyError
  | indexError : PyError
  | typeError : PyError
  deriving DecidableEq

/-- Lines 139 to 145 (wiggle) and 275 to 281 (imageseis): when
`timewindow` is set, read both endpoints and overwrite the first two
entries of the caller-supplied list with `int(value/self.dt)`.  Reading
`timesample_interval[0]` and `[1]` on a list with fewer than two
entries raises IndexError before any assignment; subscripting `None`
raises TypeError. -/
def convertTW (dt : ℚ) (tw : Bool) (timeI : Option (List ℚ)) : Except PyError (Option (List ℚ)) :=
  if tw then
    match timeI with
    | none => .error .typeError
    | some [] => .error .indexError
    | some [_] => .error .indexError
    | some (s0 :: s1 :: rest) =>
        .ok (some (((pyInt (s0 / dt) : ℤ) : ℚ) :: ((pyInt (s1 / dt) : ℤ) : ℚ) :: rest))
  else .ok timeI

/-- Lines 147 to 154 and 283 to 290: `if len(l) != 2 or len(l) > 2
then print(...); sys.exit()`, kept with the redundant disjunct. -/
def lenCheck (o : Option (List ℚ)) : Except PyError Unit :=
  match o with
  | none => .ok ()
  | some l => if l.length ≠ 2 ∨ 2 < l.length then .error .configError else .ok ()

/-- Lines 160 to 163 and 295 to 298: slice the copied matrix, columns
by `trace_interval`, rows by the (already converted) time interval. -/
def selectView (st : SegyState) (traceI timeI2 : Option (List ℚ)) : List (List ℚ) :=
  let d1 := match traceI with
    | none => st.Data
    | some l => st.Data.map (fun r => pySlice r (pyInt (l.getD 0 0)) (pyInt (l.getD 1 0)))
  match timeI2 with
  | none => d1
  | some l => pySlice d1 (pyInt (l.getD 0 0)) (pyInt (l.getD 1 0))

/-- Lines 166 to 167 and 300 to 301: `np.abs(np.percentile(Data, perc))`.
The percentile is taken over the raw signed data and the absolute value
applied afterwards. -/
def nthPercentileBound (m : List (List ℚ)) (p : ℚ) : ℚ := |npPercentile m.flatten p|

/-- Lines 170 and 304: `np.clip(Data, -nth_percentile, nth_percentile)`. -/
def percClip (m : List (List ℚ)) (p : ℚ) : List (List ℚ) :=
  m.map (List.map (fun v => clipQ v (-(nthPercentileBound m p)) (nthPercentileBound m p)))

/-- The shared front of `wiggle` and `imageseis` in source order:
timewindow conversion, the two length checks, `copy.copy(self.Data)`
plus slicing, percentile bound, clip.  Returns the sliced view, the
clipped view and the bound, or the first error raised. -/
def slicedClipped (st : SegyState) (traceI timeI : Option (List ℚ)) (tw : Bool) (perc : ℚ) :
    Except PyError (List (List ℚ) × List (List ℚ) × ℚ) :=
  match convertTW st.dt tw timeI with
  | .error e => .error e
  | .ok timeI2 =>
    match lenCheck traceI with
    | .error e => .error e
    | .ok _ =>
      match lenCheck timeI2 with
      | .error e => .error e
      | .ok _ =>
        let d2 := selectView st traceI timeI2
        .ok (d2, percClip d2 perc, nthPercentileBound d2 perc)

/-- The quantities `wiggle` derives from its view: the sliced data, the
clipped data, the clip bound, and `maxval = np.abs(np.nanmax(Data))`
of lines 209 to 210 (computed on the clipped data). -/
structure WiggleRender where
  sliced : List (List ℚ)
  clipped : List (List ℚ)
  bound : ℚ
  maxval : ℚ
  deriving DecidableEq

/-- Lines 209 to 210 of `wiggle`: `np.abs(np.nanmax(Data))`. -/
def wiggleMaxvalOf (m : List (List ℚ)) : ℚ := |listMax m.flatten|

/-- The data part of a `wiggle` call. -/
def wiggleResultOf (st : SegyState) (traceI timeI : Option (List ℚ)) (tw : Bool) (perc : ℚ) :
    Except PyError WiggleRender :=
  match slicedClipped st traceI timeI tw perc with
  | .error e => .error e
  | .ok (d2, d3, b) => .ok ⟨d2, d3, b, wiggleMaxvalOf d3⟩

/-- Contents of the caller-supplied `timesample_interval` list after the
call: the in-place assignments of lines 143 to 144 (and 279 to 280)
replace its first two entries whenever the conversion ran to completion,
and run before the length checks and the slicing. -/
def wiggleTimeAfter (dt : ℚ) (tw : Bool) (timeI : Option (List ℚ)) : Option (List ℚ) :=
  match convertTW dt tw timeI with
  | .ok t => t
  | .error _ => timeI

/-- Everything observable about a `wiggle` call: its data result (or the
error it stops with), the caller list after the call, and the object
state after the call.  Line 158 takes `copy.copy(self.Data)` (a fresh
ndarray buffer), so the loop mutations of lines 216 to 218 and 227 to
229 touch only that copy and the object state is returned unchanged. -/
structure WiggleOutcome where
  result : Except PyError WiggleRender
  timeIafter : Option (List ℚ)
  stateAfter : SegyState

/-- The `wiggle` method, lines 99 to 236, restricted to its data flow
(the matplotlib drawing calls carry no further modelled state). -/
def wiggle (st : SegyState) (traceI timeI : Option (List ℚ)) (tw : Bool) (perc : ℚ) :
    WiggleOutcome :=
  ⟨wiggleResultOf st traceI timeI tw perc, wiggleTimeAfter st.dt tw timeI, st⟩

/-- Lines 215 to 220 of `wiggle`, for one rendered trace with baseline
`xi`, spacing `dx`, gain `g`, trace skip `sk` and the global `maxval`:
pin both endpoints to zero on the working copy, then
`traceplt = x[i] + gain*skipt*dx*trace/maxval` clipped to
`[x[i]-dx, x[i]+dx]`.  A `none` sample is the non-finite value numpy
produces when `maxval = 0` (there is no guard in the source). -/
def tracePlt (xi dx g sk mv : ℚ) (tr : List ℚ) : List (Option ℚ) :=
  (pinEnds tr).map (fun v =>
    (qdiv (g * sk * dx * v) mv).map (fun w => clipQ (xi + w) (xi - dx) (xi + dx)))

/-- The quantities `imageseis` derives from its view: sliced and clipped
data, clip bound, `maxval = -1*(-1)*np.max(Data) = np.max(Data)` of
lines 307 to 309, the raster data `Data*gain` and the color limits
`vmin = -1*maxval`, `vmax = maxval` of line 355. -/
structure ImageRender where
  sliced : List (List ℚ)
  clipped : List (List ℚ)
  bound : ℚ
  maxval : ℚ
  rasterData : List (List ℚ)
  vmin : ℚ
  vmax : ℚ
  deriving DecidableEq

/-- The data part of an `imageseis` call. -/
def imageseisResultOf (st : SegyState) (traceI timeI : Option (List ℚ)) (tw : Bool)
    (gain perc : ℚ) : Except PyError ImageRender :=
  match slicedClipped st traceI timeI tw perc with
  | .error e => .error e
  | .ok (d2, d3, b) =>
    let mv := listMax d3.flatten
    .ok ⟨d2, d3, b, mv, d3.map (List.map (fun v => v * gain)), -1 * mv, mv⟩

/-- Everything observable about an `imageseis` call, analogous to
`WiggleOutcome`; line 294 copies `self.Data`, so the object state is
returned unchanged. -/
structure ImageOutcome where
  result : Except PyError ImageRender
  timeIafter : Option (List ℚ)
  stateAfter : SegyState

/-- The `imageseis` method, lines 240 to 382, restricted to its data
flow. -/
def imageseis (st : SegyState) (traceI timeI : Option (List ℚ)) (tw : Bool) (gain perc : ℚ) :
    ImageOutcome :=
  ⟨imageseisResultOf st traceI timeI tw gain perc, wiggleTimeAfter st.dt tw timeI, st⟩

/-- The state of the raster handle `img` returned by `plt.pcolormesh`:
its (already computed) raster data and its current color limits. -/
structure ImgHandle where
  data : List (List ℚ)
  clim : ℚ × ℚ
  deriving DecidableEq

/-- The slider callback `update` of lines 372 to 376:
`img.set_clim([s_cmin.val/s_gain.val, s_cmax.val/s_gain.val])`.
It only rebinds the color limits of the existing raster. -/
def update (img : ImgHandle) (cminVal cmaxVal gainVal : ℚ) : ImgHandle :=
  { img with clim := (cminVal / gainVal, cmaxVal / gainVal) }

/-- Modelled from the spec for comparison (claim C1): the clip bound the
spec describes, `|percentile(|data|, p)|`, the percentile of the
absolute amplitudes. -/
def specPercBound (m : List (List ℚ)) (p : ℚ) : ℚ :=
  |npPercentile (m.flatten.map (fun v => |v|)) p|

/-- Modelled from the spec for comparison (claim C1): clipping to the
spec bound. -/
def specPercClip (m : List (List ℚ)) (p : ℚ) : List (List ℚ) :=
  m.map (List.map (fun v => clipQ v (-(specPercBound m p)) (specPercBound m p)))

/-- Modelled from the spec for comparison (claim C3): the color-scale
normalisation the spec describes, `maxval = max(data) * gain`. -/
def specImageMaxval (view : List (List ℚ)) (gain : ℚ) : ℚ := listMax view.flatten * gain

/-- Modelled from the spec for comparison (claim C5): the offset trace
the spec describes, `x[i] + gain*traceSkip*dx*trace/maxAbs` with
`maxAbs = max(data)` over the view (no absolute value), clipped to
`[x[i]-dx, x[i]+dx]`. -/
def specOffsetTrace (xi dx g sk : ℚ) (view : List (List ℚ)) (tr : List ℚ) : List ℚ :=
  (pinEnds tr).map (fun v =>
    clipQ (xi + g * sk * dx * v / listMax view.flatten) (xi - dx) (xi + dx))

/-- A range argument of bad length: supplied (not `None`) with a number
of entries other than two. -/
def badLen : Option (List ℚ) → Bool
  | none => false
  | some l => l.length != 2

/-- A one-trace toolbox state used as concrete input. -/
def st3 : SegyState := ⟨[[3]], 0, [], 1⟩

/-- The render `imageseis st3 none none false 2 100` computes. -/
def render3 : ImageRender := ⟨[[3]], [[3]], 3, 3, [[6]], -3, 3⟩

/-- A two-trace all-negative toolbox state used as concrete input. -/
def st5 : SegyState := ⟨[[-1, -1], [-4, -4], [-2, -2]], 0, [], 1⟩

/-- The render `wiggle st5 none none false 0` computes: percentile 0 of
the flattened data is the minimum `-4`, the bound is `4`, clipping is
the identity here, and `maxval = |max| = |-1| = 1`. -/
def render5 : WiggleRender := ⟨[[-1, -1], [-4, -4], [-2, -2]], [[-1, -1], [-4, -4], [-2, -2]], 4, 1⟩

/-- A tiny toolbox state with `dt = 1/500`, i.e. 2 ms sampling. -/
def stW : SegyState := ⟨[[1]], 0, [], 1/500⟩

/-- A 160-sample, one-trace all-zero state with `dt = 1/500`. -/
def stR : SegyState := ⟨List.replicate 160 [(0 : ℚ)], 0, [], 1/500⟩

/-- The all-zero four-trace, three-sample dataset of the end-to-end
degenerate scenario. -/
def allZero34 : List (List ℚ) := List.replicate 3 (List.replicate 4 0)

/-- Toolbox state holding `allZero34`. -/
def stZero : SegyState := ⟨allZero34, 0, [], 1⟩

theorem ratFloorZ_eq (q : ℚ) : ratFloorZ q = ⌊q⌋ := Rat.floor_def.symm

theorem pyInt_floor (q : ℚ) (h : 0 ≤ q) : pyInt q = ⌊q⌋ := by
  unfold pyInt
  rw [if_neg (not_lt.2 h)]
  exact ratFloorZ_eq q

theorem clipQ_abs_le (v b : ℚ) (hb : 0 ≤ b) : |clipQ v (-b) b| ≤ b := by
  rw [abs_le]
  unfold clipQ
  exact ⟨le_min (le_max_right v (-b)) (neg_le_self hb), min_le_right _ b⟩

theorem clipQ_bounds (v lo hi : ℚ) (h : lo ≤ hi) : lo ≤ clipQ v lo hi ∧ clipQ v lo hi ≤ hi := by
  unfold clipQ
  exact ⟨le_min (le_max_right v lo) h, min_le_right _ hi⟩

theorem clipQ_base (xi dx : ℚ) (hdx : 0 ≤ dx) : clipQ xi (xi - dx) (xi + dx) = xi := by
  unfold clipQ
  rw [max_eq_left (by linarith), min_eq_left (by linarith)]

theorem setFirst0_ne_nil (l : List ℚ) (h : l ≠ []) : setFirst0 l ≠ [] := by
  cases l with
  | nil => exact absurd rfl h
  | cons a as => simp [setFirst0]

theorem pinEnds_head (l : List ℚ) (h : l ≠ []) : (pinEnds l).head? = some 0 := by
  cases l with
  | nil => exact absurd rfl h
  | cons a as => cases as <;> simp [pinEnds, setFirst0, setLast0]

theorem setLast0_getLast : ∀ l : List ℚ, l ≠ [] → (setLast0 l).getLast? = some 0
  | [_], _ => rfl
  | a :: b :: t, _ => by
      have ih := setLast0_getLast (b :: t) (by simp)
      cases t with
      | nil => simp [setLast0]
      | cons c u =>
          show ((a :: setLast0 (b :: c :: u)) : List ℚ).getLast? = some 0
          rw [show setLast0 (b :: c :: u) = b :: setLast0 (c :: u) from rfl] at ih ⊢
          rw [List.getLast?_cons_cons]
          exact ih

theorem pinEnds_getLast (l : List ℚ) (h : l ≠ []) : (pinEnds l).getLast? = some 0 :=
  setLast0_getLast (setFirst0 l) (setFirst0_ne_nil l h)

theorem lenCheck_config (o : Option (List ℚ)) (h : badLen o = true) :
    lenCheck o = .error .configError := by
  cases o with
  | none => simp [badLen] at h
  | some l =>
      simp only [badLen, bne_iff_ne, ne_eq] at h
      simp [lenCheck, h]

theorem lenCheck_cases (o : Option (List ℚ)) :
    lenCheck o = .ok () ∨ lenCheck o = .error .configError := by
  cases o with
  | none => exact .inl rfl
  | some l =>
      by_cases h : l.length ≠ 2 ∨ 2 < l.length
      · exact .inr (by simp [lenCheck, h])
      · exact .inl (by simp [lenCheck, h])

theorem take_min {α : Type} (l : List α) (k : ℕ) : l.take (min k l.length) = l.take k := by
  rcases le_total k l.length with h | h
  · rw [min_eq_left h]
  · rw [min_eq_right h, List.take_length, List.take_of_length_le h]

theorem pySlice_nonneg {α : Type} (l : List α) (a b : ℤ) (ha : 0 ≤ a) (hb : 0 ≤ b) :
    pySlice l a b = (l.take b.toNat).drop a.toNat := by
  unfold pySlice pyIndexNorm
  rw [if_neg (not_lt.2 hb), if_neg (not_lt.2 ha), take_min]
  rcases le_total a.toNat l.length with h | h
  · rw [min_eq_left h]
  · rw [min_eq_right h, List.drop_eq_nil_of_le (by simp [List.length_take]),
      List.drop_eq_nil_of_le (by simp only [List.length_take]; omega)]

theorem wiggleResultOf_error {st : SegyState} {traceI timeI : Option (List ℚ)} {tw : Bool}
    {perc : ℚ} {e : PyError} (h : slicedClipped st traceI timeI tw perc = .error e) :
    wiggleResultOf st traceI timeI tw perc = .error e := by
  unfold wiggleResultOf
  rw [h]

theorem imageseisResultOf_error {st : SegyState} {traceI timeI : Option (List ℚ)} {tw : Bool}
    {g perc : ℚ} {e : PyError} (h : slicedClipped st traceI timeI tw perc = .error e) :
    imageseisResultOf st traceI timeI tw g perc = .error e := by
  unfold imageseisResultOf
  rw [h]

theorem slicedClipped_error (st : SegyState) (traceI timeI : Option (List ℚ)) (tw : Bool)
    (perc : ℚ) (hbad : badLen traceI = true ∨ badLen timeI = true) :
    (∃ e, slicedClipped st traceI timeI tw perc = .error e)
    ∧ (tw = false → slicedClipped st traceI timeI tw perc = .error .configError) := by
  cases tw with
  | false =>
      have herr : slicedClipped st traceI timeI false perc = .error .configError := by
        rcases hbad with h | h
        · simp [slicedClipped, convertTW, lenCheck_config _ h]
        · rcases lenCheck_cases traceI with h2 | h2 <;>
            simp [slicedClipped, convertTW, h2, lenCheck_config _ h]
      exact ⟨⟨_, herr⟩, fun _ => herr⟩
  | true =>
      rcases timeI with _ | ⟨_ | ⟨s0, _ | ⟨s1, rest⟩⟩⟩
      · exact ⟨⟨.typeError, by simp [slicedClipped, convertTW]⟩, fun h => Bool.noConfusion h⟩
      · exact ⟨⟨.indexError, by simp [slicedClipped, convertTW]⟩, fun h => Bool.noConfusion h⟩
      · exact ⟨⟨.indexError, by simp [slicedClipped, convertTW]⟩, fun h => Bool.noConfusion h⟩
      · rcases hbad with h | h
        · exact ⟨⟨.configError, by simp [slicedClipped, convertTW, lenCheck_config _ h]⟩,
            fun h2 => Bool.noConfusion h2⟩
        · have h3 : badLen (some (((pyInt (s0 / st.dt) : ℤ) : ℚ)
              :: ((pyInt (s1 / st.dt) : ℤ) : ℚ) :: rest)) = true := by
            simp only [badLen, List.length_cons] at h ⊢
            exact h
          rcases lenCheck_cases traceI with h2 | h2
          · exact ⟨⟨.configError,
              by simp [slicedClipped, convertTW, h2, lenCheck_config _ h3]⟩,
              fun h4 => Bool.noConfusion h4⟩
          · exact ⟨⟨.configError,
              by simp [slicedClipped, convertTW, h2, lenCheck_config _ h3]⟩,
              fun h4 => Bool.noConfusion h4⟩

/-- C1 counterexample: the code computes the percentile of the raw
signed data and takes the absolute value afterwards, not the percentile
of the absolute amplitudes.  On the view `[[-4, 2]]` with `p = 0` the
code bound is `4` while the bound the claim describes is `2`, the
clipped outputs differ, and the output element `-4` exceeds the bound
the claim describes. -/
theorem percBound_not_absPercentile :
    nthPercentileBound [[-4, 2]] 0 ≠ specPercBound [[-4, 2]] 0
    ∧ percClip [[-4, 2]] 0 ≠ specPercClip [[-4, 2]] 0
    ∧ (-4 : ℚ) ∈ (percClip [[-4, 2]] 0).flatten
    ∧ ¬(|(-4 : ℚ)| ≤ specPercBound [[-4, 2]] 0) := by
  norm_num [nthPercentileBound, specPercBound, percClip, specPercClip, npPercentile,
    sortAsc, insertSorted, ratFloorZ, clipQ]

/-- C1 (amended): the percentile-clipping step computes
`bound = |percentile(data, p)|` over the raw signed data and returns
`clip(data, -bound, bound)`: for every `p` each output element has
absolute value at most the computed bound, and the array shape is
preserved (elementwise saturation, not removal). -/
theorem percClip_saturates (m : List (List ℚ)) (p : ℚ) :
    (∀ v, v ∈ (percClip m p).flatten → |v| ≤ nthPercentileBound m p)
    ∧ (percClip m p).map List.length = m.map List.length := by
  constructor
  · intro v hv
    rw [List.mem_flatten] at hv
    obtain ⟨row, hrow, hv⟩ := hv
    simp only [percClip, List.mem_map] at hrow
    obtain ⟨r0, _, hrow⟩ := hrow
    subst hrow
    rw [List.mem_map] at hv
    obtain ⟨w, _, hwv⟩ := hv
    subst hwv
    exact clipQ_abs_le w (nthPercentileBound m p) (abs_nonneg _)
  · simp [percClip, List.map_map, Function.comp]

/-- Witness for the C1 theorem at the view `[[-4, 2]]`, `p = 50`: the
clipped output contains `-1` and it obeys the computed bound. -/
theorem percClip_saturates_w :
    |(-1 : ℚ)| ≤ nthPercentileBound [[-4, 2]] 50 :=
  (percClip_saturates [[-4, 2]] 50).1 (-1)
    (by norm_num [percClip, nthPercentileBound, npPercentile, sortAsc, insertSorted,
      ratFloorZ, clipQ])

/-- C2: with `perc = 100` on the all-negative view `[[-5, -1]]` the
code bound is `|max| = 1`, not the maximum absolute amplitude `5`, and
clipping maps `-5` to `-1`: the step is not the identity, contradicting
the claim and the source comment that data is not clipped at
`perc = 100`. -/
theorem percentile100_clips_negative_data :
    percClip [[-5, -1]] 100 = [[-1, -1]]
    ∧ percClip [[-5, -1]] 100 ≠ [[-5, -1]]
    ∧ nthPercentileBound [[-5, -1]] 100 = 1
    ∧ nthPercentileBound [[-5, -1]] 100
        ≠ listMax (([[-5, -1]] : List (List ℚ)).flatten.map (fun v => |v|)) := by
  norm_num [percClip, nthPercentileBound, npPercentile, sortAsc, insertSorted,
    ratFloorZ, clipQ, listMax]

/-- C3 counterexample: on the view `[[3]]` with `gain = 2` the color
limit the code computes is `max(data) = 3`, not `max(data) * gain = 6`
as the claim states. -/
theorem imageseis_vmax_ignores_gain :
    (imageseis st3 none none false 2 100).result = .ok render3
    ∧ render3.maxval ≠ specImageMaxval render3.clipped 2
    ∧ render3.vmax ≠ specImageMaxval render3.clipped 2 := by
  refine ⟨?_, by norm_num [render3, specImageMaxval, listMax],
    by norm_num [render3, specImageMaxval, listMax]⟩
  show imageseisResultOf st3 none none false 2 100 = .ok render3
  norm_num [st3, render3, imageseisResultOf, slicedClipped, convertTW, lenCheck, selectView,
    percClip, nthPercentileBound, npPercentile, sortAsc, insertSorted, ratFloorZ, clipQ,
    listMax]

/-- C3 (amended): the color-scale normalisation is
`maxval = max(data)` over the clipped view (the gain does not enter the
limits), the raster is drawn over `data * gain`, and the color limits
are `[-maxval, maxval]`. -/
theorem imageseis_colorscale (st : SegyState) (traceI timeI : Option (List ℚ)) (tw : Bool)
    (g p : ℚ) (r : ImageRender)
    (h : (imageseis st traceI timeI tw g p).result = .ok r) :
    r.maxval = listMax r.clipped.flatten
    ∧ r.rasterData = r.clipped.map (List.map (fun v => v * g))
    ∧ r.vmin = -r.maxval ∧ r.vmax = r.maxval := by
  have h2 : imageseisResultOf st traceI timeI tw g p = .ok r := h
  unfold imageseisResultOf at h2
  cases hsc : slicedClipped st traceI timeI tw p with
  | error e =>
      rw [hsc] at h2
      exact absurd h2 (by simp)
  | ok t =>
      obtain ⟨d2, d3, b⟩ := t
      rw [hsc] at h2
      simp only [Except.ok.injEq] at h2
      subst h2
      exact ⟨rfl, rfl, by simp, rfl⟩

/-- Witness for the C3 theorem at `st3`, `gain = 2`, `perc = 100`. -/
theorem imageseis_colorscale_w :
    render3.maxval = listMax render3.clipped.flatten
    ∧ render3.rasterData = render3.clipped.map (List.map (fun v => v * 2))
    ∧ render3.vmin = -render3.maxval ∧ render3.vmax = render3.maxval :=
  imageseis_colorscale st3 none none false 2 100 render3
    (by norm_num [st3, render3, imageseis, imageseisResultOf, slicedClipped, convertTW,
      lenCheck, selectView, percClip, nthPercentileBound, npPercentile, sortAsc,
      insertSorted, ratFloorZ, clipQ, listMax])

/-- C4: the slider callback sets the color limits of the existing
raster to exactly `(cmin/gain, cmax/gain)` without touching the raster
data, and it is idempotent: applying it twice with the same slider
values gives the same handle state.  The hypothesis excludes the gain
value `0`, at which the Python division itself would raise. -/
theorem update_sets_clim (img : ImgHandle) (a b g : ℚ) (_hg : g ≠ 0) :
    (update img a b g).clim = (a / g, b / g)
    ∧ (update img a b g).data = img.data
    ∧ update (update img a b g) a b g = update img a b g :=
  ⟨rfl, rfl, rfl⟩

/-- Witness for the C4 theorem at a concrete handle and slider state. -/
theorem update_sets_clim_w :
    (update ⟨[[1]], (0, 0)⟩ 2 4 2).clim = (2 / 2, 4 / 2)
    ∧ (update (⟨[[1]], (0, 0)⟩ : ImgHandle) 2 4 2).data = (⟨[[1]], (0, 0)⟩ : ImgHandle).data
    ∧ update (update ⟨[[1]], (0, 0)⟩ 2 4 2) 2 4 2 = update ⟨[[1]], (0, 0)⟩ 2 4 2 :=
  update_sets_clim ⟨[[1]], (0, 0)⟩ 2 4 2 (by norm_num)

/-- C5 counterexample: the code scales by `maxval = |max(Data)|`
(absolute value of the maximum), not by `max(Data)` as the claim
states.  On the all-negative view of `st5` (percentile 0, clipping the
identity) the rendered first trace differs from the offset trace the
claim describes. -/
theorem wiggle_normalisation_mismatch :
    (wiggle st5 none none false 0).result = .ok render5
    ∧ tracePlt 0 1 1 1 render5.maxval (col render5.clipped 0)
        ≠ (specOffsetTrace 0 1 1 1 render5.clipped (col render5.clipped 0)).map some := by
  constructor
  · show wiggleResultOf st5 none none false 0 = .ok render5
    norm_num [st5, render5, wiggleResultOf, slicedClipped, convertTW, lenCheck, selectView,
      percClip, nthPercentileBound, npPercentile, sortAsc, insertSorted, ratFloorZ, clipQ,
      listMax, wiggleMaxvalOf]
  · norm_num [render5, tracePlt, specOffsetTrace, pinEnds, setFirst0, setLast0, qdiv, clipQ,
      listMax, col]

/-- C5 (amended): for a rendered trace at baseline `xi` with spacing
`dx`, the first and last working-copy samples are pinned to zero (so
both rendered endpoints sit exactly on the baseline), the plotted
curve is `x[i] + gain*skipt*dx*trace/maxAbs` with
`maxAbs = |max(data)|` over the visible view (the absolute value of
the maximum, still not the maximum of absolute values), and every
rendered sample is clipped into `[x[i]-dx, x[i]+dx]`. -/
theorem tracePlt_formula (xi dx g sk : ℚ) (m : List (List ℚ)) (i : ℕ)
    (hmv : wiggleMaxvalOf m ≠ 0) (hdx : 0 ≤ dx) (hcol : col m i ≠ []) :
    tracePlt xi dx g sk (wiggleMaxvalOf m) (col m i)
      = (pinEnds (col m i)).map
          (fun v => some (clipQ (xi + g * sk * dx * v / wiggleMaxvalOf m) (xi - dx) (xi + dx)))
    ∧ (tracePlt xi dx g sk (wiggleMaxvalOf m) (col m i)).head? = some (some xi)
    ∧ (tracePlt xi dx g sk (wiggleMaxvalOf m) (col m i)).getLast? = some (some xi)
    ∧ ∀ y ∈ tracePlt xi dx g sk (wiggleMaxvalOf m) (col m i), ∀ z, y = some z →
        xi - dx ≤ z ∧ z ≤ xi + dx := by
  have h1 : tracePlt xi dx g sk (wiggleMaxvalOf m) (col m i)
      = (pinEnds (col m i)).map
          (fun v => some (clipQ (xi + g * sk * dx * v / wiggleMaxvalOf m) (xi - dx) (xi + dx))) := by
    simp [tracePlt, qdiv, hmv]
  refine ⟨h1, ?_, ?_, ?_⟩
  · rw [h1, List.head?_map, pinEnds_head _ hcol]
    simp [clipQ_base xi dx hdx]
  · rw [h1, List.getLast?_map, pinEnds_getLast _ hcol]
    simp [clipQ_base xi dx hdx]
  · intro y hy z hz
    rw [h1, List.mem_map] at hy
    obtain ⟨v, _, hyv⟩ := hy
    subst hyv
    rw [Option.some.injEq] at hz
    rw [← hz]
    exact clipQ_bounds _ _ _ (by linarith)

/-- Witness for the C5 theorem at a concrete positive view. -/
theorem tracePlt_formula_w :
    (tracePlt 0 1 1 1 (wiggleMaxvalOf [[1, 2], [3, 4]]) (col [[1, 2], [3, 4]] 0)).head?
      = some (some 0) :=
  (tracePlt_formula 0 1 1 1 [[1, 2], [3, 4]] 0
    (by norm_num [wiggleMaxvalOf, listMax]) (by norm_num)
    (by simp [col, List.cons_ne_nil])).2.1

/-- C6 counterexample: with `timewindow = true` and the one-element
time range `[1/2]`, both calls stop with the IndexError of the
endpoint read, not with the configuration error the claim promises for
every range of length other than two. -/
theorem short_timeRange_not_configError :
    (wiggle stW none (some [1/2]) true 100).result = .error .indexError
    ∧ (imageseis stW none (some [1/2]) true 1 100).result = .error .indexError
    ∧ PyError.indexError ≠ PyError.configError :=
  ⟨rfl, rfl, by decide⟩

/-- C6 (amended): a supplied `traceRange` or `timeRange` of length
other than two makes both calls stop with an error before any slicing
(the result carries no sliced data), and whenever `timewindow` is off
that error is exactly the configuration error; with `timewindow` on, a
time range shorter than two entries stops even earlier with an index
error. -/
theorem malformed_range_rejected (st : SegyState) (traceI timeI : Option (List ℚ))
    (tw : Bool) (perc g : ℚ) (hbad : badLen traceI = true ∨ badLen timeI = true) :
    (∃ e, (wiggle st traceI timeI tw perc).result = .error e)
    ∧ (∃ e, (imageseis st traceI timeI tw g perc).result = .error e)
    ∧ (tw = false →
        (wiggle st traceI timeI tw perc).result = .error .configError
        ∧ (imageseis st traceI timeI tw g perc).result = .error .configError) := by
  obtain ⟨⟨e, he⟩, hcfg⟩ := slicedClipped_error st traceI timeI tw perc hbad
  exact ⟨⟨e, wiggleResultOf_error he⟩, ⟨e, imageseisResultOf_error he⟩,
    fun htw => ⟨wiggleResultOf_error (hcfg htw), imageseisResultOf_error (hcfg htw)⟩⟩

/-- Witness for the C6 theorem at `traceRange = [1, 2, 3]`. -/
theorem malformed_range_rejected_w :
    (∃ e, (wiggle stW (some [1, 2, 3]) none false 100).result = .error e)
    ∧ (∃ e, (imageseis stW (some [1, 2, 3]) none false 1 100).result = .error e)
    ∧ (false = false →
        (wiggle stW (some [1, 2, 3]) none false 100).result = .error .configError
        ∧ (imageseis stW (some [1, 2, 3]) none false 1 100).result = .error .configError) :=
  malformed_range_rejected stW (some [1, 2, 3]) none false 100 1 (Or.inl rfl)

/-- C7: with the physical-seconds flag set, both endpoints are
converted through `int(seconds/dt)`, which equals
`⌊seconds/dt⌋` for the nonnegative times of a time window; in
particular `timeRange = [0.1, 0.3]` with `dt = 0.002` becomes
`[50, 150]` and the data rows are sliced to `[50, 150)`. -/
theorem timewindow_floor_conversion (st : SegyState) (s0 s1 : ℚ)
    (hdt : 0 < st.dt) (h0 : 0 ≤ s0) (h1 : 0 ≤ s1) :
    (wiggle st none (some [s0, s1]) true 100).timeIafter
      = some [((⌊s0 / st.dt⌋ : ℤ) : ℚ), ((⌊s1 / st.dt⌋ : ℤ) : ℚ)]
    ∧ (imageseis st none (some [s0, s1]) true 1 100).timeIafter
      = some [((⌊s0 / st.dt⌋ : ℤ) : ℚ), ((⌊s1 / st.dt⌋ : ℤ) : ℚ)]
    ∧ (st.dt = 1/500 → s0 = 1/10 → s1 = 3/10 →
        (wiggle st none (some [s0, s1]) true 100).timeIafter = some [50, 150]
        ∧ ∀ r, (wiggle st none (some [s0, s1]) true 100).result = .ok r →
            r.sliced = (st.Data.take 150).drop 50) := by
  have e0 : pyInt (s0 / st.dt) = ⌊s0 / st.dt⌋ := pyInt_floor _ (div_nonneg h0 hdt.le)
  have e1 : pyInt (s1 / st.dt) = ⌊s1 / st.dt⌋ := pyInt_floor _ (div_nonneg h1 hdt.le)
  have hta : (wiggle st none (some [s0, s1]) true 100).timeIafter
      = some [((⌊s0 / st.dt⌋ : ℤ) : ℚ), ((⌊s1 / st.dt⌋ : ℤ) : ℚ)] := by
    show wiggleTimeAfter st.dt true (some [s0, s1]) = _
    simp [wiggleTimeAfter, convertTW, e0, e1]
  refine ⟨hta, hta, fun hdt2 hs0 hs1 => ?_⟩
  subst hs0
  subst hs1
  constructor
  · rw [hta, hdt2]
    norm_num
  · intro r hr
    have hr2 : wiggleResultOf st none (some [1/10, 3/10]) true 100 = .ok r := hr
    unfold wiggleResultOf slicedClipped at hr2
    rw [hdt2] at hr2
    norm_num [convertTW, lenCheck, selectView, pyInt, ratFloorZ] at hr2
    subst hr2
    show pySlice st.Data 50 150 = (st.Data.take 150).drop 50
    rw [pySlice_nonneg st.Data 50 150 (by norm_num) (by norm_num)]
    rfl

/-- Witness for the C7 theorem at the 160-row state `stR`. -/
theorem timewindow_floor_conversion_w :
    (wiggle stR none (some [1/10, 3/10]) true 100).timeIafter = some [50, 150] :=
  ((timewindow_floor_conversion stR (1/10) (3/10) (by norm_num [stR]) (by norm_num)
      (by norm_num)).2.2 rfl rfl rfl).1

/-- C8: on the all-zero four-trace, three-sample dataset the
percentile clipper returns all zeros and `maxval = 0`, but the scaling
division is not skipped: every rendered sample of the first trace is
the non-finite value of a division by zero (`none`), not a baseline
position, contradicting the guarded fallback the claim describes. -/
theorem allzero_division_unguarded :
    percClip allZero34 50 = allZero34
    ∧ (wiggle stZero none none false 50).result = .ok ⟨allZero34, allZero34, 0, 0⟩
    ∧ wiggleMaxvalOf allZero34 = 0
    ∧ tracePlt 0 1 1 1 (wiggleMaxvalOf allZero34) (col allZero34 0)
        = List.replicate 3 none := by
  refine ⟨?_, ?_, ?_, ?_⟩
  · norm_num [allZero34, percClip, nthPercentileBound, npPercentile, sortAsc, insertSorted,
      ratFloorZ, clipQ, List.replicate, show Int.toNat 5 = 5 from rfl]
  · show wiggleResultOf stZero none none false 50 = .ok ⟨allZero34, allZero34, 0, 0⟩
    norm_num [stZero, allZero34, wiggleResultOf, slicedClipped, convertTW, lenCheck,
      selectView, percClip, nthPercentileBound, npPercentile, sortAsc, insertSorted,
      ratFloorZ, clipQ, listMax, wiggleMaxvalOf, List.replicate,
      show Int.toNat 5 = 5 from rfl]
  · norm_num [allZero34, wiggleMaxvalOf, listMax, List.replicate]
  · norm_num [allZero34, tracePlt, col, pinEnds, setFirst0, setLast0, qdiv, wiggleMaxvalOf,
      listMax, List.replicate]

/-- C9: neither rendering call nor the slider callback mutates the
source dataset: the object state (Data, SH, STH) after `wiggle` and
`imageseis` equals the state before (the calls work on a copy), and
the slider callback leaves the raster data untouched, changing only
the color limits. -/
theorem calls_preserve_state (st : SegyState) (traceI timeI : Option (List ℚ)) (tw : Bool)
    (perc g : ℚ) (img : ImgHandle) (a b gv : ℚ) :
    (wiggle st traceI timeI tw perc).stateAfter = st
    ∧ (imageseis st traceI timeI tw g perc).stateAfter = st
    ∧ (update img a b gv).data = img.data :=
  ⟨rfl, rfl, rfl⟩

/-- C10: with `timewindow = true` both calls overwrite the first two
entries of the caller-supplied time-range list in place with the
converted integer sample indices; whenever the converted first index
differs from the supplied seconds value the list no longer holds the
original values.  The hypothesis excludes `dt = 0`, where the Python
division would raise before the assignment. -/
theorem timewindow_mutates_caller_list (st : SegyState) (s0 s1 : ℚ) (rest : List ℚ)
    (traceI : Option (List ℚ)) (perc g : ℚ) (_hdt : st.dt ≠ 0) :
    (wiggle st traceI (some (s0 :: s1 :: rest)) true perc).timeIafter
      = some (((pyInt (s0 / st.dt) : ℤ) : ℚ) :: ((pyInt (s1 / st.dt) : ℤ) : ℚ) :: rest)
    ∧ (imageseis st traceI (some (s0 :: s1 :: rest)) true g perc).timeIafter
      = some (((pyInt (s0 / st.dt) : ℤ) : ℚ) :: ((pyInt (s1 / st.dt) : ℤ) : ℚ) :: rest)
    ∧ (((pyInt (s0 / st.dt) : ℤ) : ℚ) ≠ s0 →
        (wiggle st traceI (some (s0 :: s1 :: rest)) true perc).timeIafter
          ≠ some (s0 :: s1 :: rest)) := by
  refine ⟨rfl, rfl, fun hne heq => ?_⟩
  have h2 : (some (((pyInt (s0 / st.dt) : ℤ) : ℚ) :: ((pyInt (s1 / st.dt) : ℤ) : ℚ) :: rest)
      : Option (List ℚ)) = some (s0 :: s1 :: rest) := heq
  simp only [Option.some.injEq, List.cons.injEq] at h2
  exact hne h2.1

/-- Witness for the C10 theorem at `stW` and `timeRange = [0.1, 0.3]`. -/
theorem timewindow_mutates_caller_list_w :
    (wiggle stW none (some [1/10, 3/10]) true 100).timeIafter ≠ some [1/10, 3/10] :=
  (timewindow_mutates_caller_list stW (1/10) (3/10) [] none 100 1
    (by norm_num [stW])).2.2 (by norm_num [stW, pyInt, ratFloorZ])

end seismicToolBox

